import Mathlib

/-!
Verification of the NetSuite MCP server's authentication subsystem.

The JavaScript source is embedded shallowly: pure computations become Lean
functions; each effectful operation becomes a function of its inputs together
with the outcomes of the platform calls it makes (file reads, HTTP responses,
wall-clock time), returning its result and the resulting state.  Machine
numbers are modelled as `Int`/`Nat`; JavaScript truthiness is modelled
explicitly where the source relies on it.
-/

namespace NetSuiteMCP

/-! ## JavaScript value model

`sessionStorage.js` round-trips arbitrary JSON through `JSON.parse`, and
`isAuthenticated` relies on JavaScript truthiness of whole fields
(`!!(session && session.authenticated && session.tokens)`), so we model the
fragment of JavaScript values those operations can see. -/

/-- A JavaScript value as observed by the session-storage code: `null`,
`undefined` (an absent field), booleans, numbers, strings, arrays and
objects (an object is a list of key/value fields). -/
inductive JSVal where
  | null : JSVal
  | undef : JSVal
  | bool : Bool → JSVal
  | num : Int → JSVal
  | str : String → JSVal
  | arr : List JSVal → JSVal
  | obj : List (String × JSVal) → JSVal

/-- JavaScript truthiness: `null`, `undefined`, `false`, `0` and `""` are
falsy; every other value, in particular every object and array, is truthy. -/
def JSVal.truthy : JSVal → Bool
  | .null => false
  | .undef => false
  | .bool b => b
  | .num n => n != 0
  | .str s => s != ""
  | .arr _ => true
  | .obj _ => true

/-- Field access `v[k]`: the first binding of `k` in an object, `undefined`
when the field is absent or the value is not an object. -/
def JSVal.get : JSVal → String → JSVal
  | .obj fields, k => lookupField fields k
  | _, _ => .undef
where
  /-- First binding of `k` in a field list, `undefined` if none. -/
  lookupField : List (String × JSVal) → String → JSVal
    | [], _ => .undef
    | (k₂, v) :: rest, k => if k₂ = k then v else lookupField rest k

/-- JavaScript `a || b` on an optional string field (`undefined`/absent and
`""` are falsy, so both fall through to the default). -/
def jsOrString : Option String → String → String
  | none, d => d
  | some s, d => if s = "" then d else s

/-! ## Token refresh timing (`tokenExchange.js`, `shouldRefreshToken`) -/

/-- A token record as built by `exchangeCodeForTokens` / updated by
`refreshAccessToken`:
`{access_token, refresh_token, expires_in, expires_at, accountId, clientId}`.
Timestamps are milliseconds since the epoch. -/
structure Tokens where
  access_token : String
  refresh_token : String
  expires_in : Int
  expires_at : Int
  accountId : String
  clientId : String
deriving DecidableEq, Repr

/-- Five minutes in milliseconds (`5 * 60 * 1000`), the refresh buffer used
by `shouldRefreshToken` and the tools-cache TTL. -/
def fiveMinutesMs : Int := 5 * 60 * 1000

/-- `shouldRefreshToken(tokens)` from `tokenExchange.js`:
`timeUntilExpiry = tokens.expires_at - Date.now()`, returning
`timeUntilExpiry < fiveMinutes`.  `Date.now()` is the explicit
argument `now`. -/
def shouldRefreshToken (tokens : Tokens) (now : Int) : Bool :=
  decide (tokens.expires_at - now < fiveMinutesMs)

/-! ## Session storage (`sessionStorage.js`, class `SessionStorage`) -/

/-- An error thrown by `fs.readFile`: Node errors carry a string `code`
(for a missing file, `"ENOENT"`). -/
structure IOError where
  code : String
  message : String
deriving DecidableEq, Repr

/-- What `SessionStorage.load` can raise: a filesystem error it re-threw, or
the `SyntaxError` thrown by `JSON.parse` (which has no `code` field, hence
never equals `ENOENT` and is always re-thrown). -/
inductive LoadError where
  | io : IOError → LoadError
  | decode : String → LoadError
deriving DecidableEq, Repr

/-- `SessionStorage.load()`.  Its two platform calls are explicit inputs:
`readResult` is the outcome of `fs.readFile(this.sessionFile, "utf-8")`, and
`parse` models `JSON.parse`.  The source:
a successful read is parsed and the parsed value returned; a read failure
with `code === "ENOENT"` returns `null`; any other failure (read or parse)
is re-thrown. -/
def SessionStorage.load (readResult : Except IOError String)
    (parse : String → Except String JSVal) : Except LoadError JSVal :=
  match readResult with
  | .error e => if e.code = "ENOENT" then .ok .null else .error (.io e)
  | .ok data =>
    match parse data with
    | .ok v => .ok v
    | .error msg => .error (.decode msg)

/-- `SessionStorage.isAuthenticated()`: runs `load` inside `try`, returning
`!!(session && session.authenticated && session.tokens)`; any exception from
`load` is caught and `false` returned.  The argument is the outcome of the
`load` call. -/
def SessionStorage.isAuthenticated (loadResult : Except LoadError JSVal) : Bool :=
  match loadResult with
  | .error _ => false
  | .ok session =>
    session.truthy && (session.get "authenticated").truthy && (session.get "tokens").truthy

/-! ## Token service (`tokenExchange.js`) -/

/-- The error `axios.post` throws: for an HTTP-level failure (non-2xx
response, which is also how a provider error payload reaches the caller)
`error.response.status` is present; for a network-level failure there is no
response and only `error.message`. -/
structure AxiosError where
  status : Option Int
  message : String
deriving DecidableEq, Repr

/-- The fields `exchangeCodeForTokens` reads from a successful token
response body. -/
structure ExchangeResponse where
  access_token : String
  refresh_token : String
  expires_in : Int
deriving DecidableEq, Repr

/-- The configuration record passed to `exchangeCodeForTokens`. -/
structure ExchangeConfig where
  accountId : String
  clientId : String
  redirectUri : String
deriving DecidableEq, Repr

/-- JavaScript `error.response?.status || error.message`: the status when
present and truthy (nonzero), otherwise the message. -/
def AxiosError.statusOrMessage (e : AxiosError) : String :=
  match e.status with
  | some s => if s = 0 then e.message else toString s
  | none => e.message

/-- `exchangeCodeForTokens(code, config, codeVerifier)`.  The `axios.post`
outcome and `Date.now()` are explicit inputs.  On success it builds the token
record (`expires_at = Date.now() + expires_in * 1000`, `accountId`/`clientId`
copied from `config`); on failure it throws
`Failed to exchange authorization code: ${error.response?.status || error.message}`. -/
def exchangeCodeForTokens (config : ExchangeConfig) (now : Int)
    (resp : Except AxiosError ExchangeResponse) : Except String Tokens :=
  match resp with
  | .ok d =>
    .ok { access_token := d.access_token
          refresh_token := d.refresh_token
          expires_in := d.expires_in
          expires_at := now + d.expires_in * 1000
          accountId := config.accountId
          clientId := config.clientId }
  | .error e =>
    .error ("Failed to exchange authorization code: " ++ e.statusOrMessage)

/-- The fields `refreshAccessToken` reads from a successful refresh
response body; the provider may omit `refresh_token` (`none`), and an empty
string is falsy for the `||` fallback. -/
structure RefreshResponse where
  access_token : String
  refresh_token : Option String
  expires_in : Int
deriving DecidableEq, Repr

/-- `refreshAccessToken(tokens)`.  On success it spreads the old record and
overwrites `access_token`, `refresh_token` (falling back to the old one via
`response.data.refresh_token || refresh_token`), `expires_in` and
`expires_at`; on failure it throws a fixed re-authentication message. -/
def refreshAccessToken (tokens : Tokens) (now : Int)
    (resp : Except AxiosError RefreshResponse) : Except String Tokens :=
  match resp with
  | .ok d =>
    .ok { tokens with
          access_token := d.access_token
          refresh_token := jsOrString d.refresh_token tokens.refresh_token
          expires_in := d.expires_in
          expires_at := now + d.expires_in * 1000 }
  | .error _ =>
    .error "Failed to refresh access token. Please re-authenticate."

/-! ## Callback server (`callbackServer.js`, `CallbackServer.handleRequest`) -/

/-- The query parameters `handleRequest` reads from the request URL:
`url.searchParams.get` yields `null` (`none`) for an absent parameter. -/
structure CallbackRequest where
  pathname : String
  code : Option String
  state : Option String
  error : Option String
deriving DecidableEq, Repr

/-- JavaScript truthiness of a `searchParams.get` result: `null` and `""`
are falsy. -/
def optTruthy : Option String → Bool
  | none => false
  | some s => s != ""

/-- The HTML page `handleRequest` sends, if any: `sendSuccessPage` (200) or
`sendErrorPage title message` (400 when the title contains "Invalid",
else 500). -/
inductive PageSent where
  | success : PageSent
  | errorPage : String → String → PageSent
deriving DecidableEq, Repr

/-- How `handleRequest` settles the flow promise: rejected with a message,
or resolved (after the 3-second success delay). -/
inductive Settled where
  | rejected : String → Settled
  | resolved : Settled
deriving DecidableEq, Repr

/-- The observable effects of one `handleRequest` call: whether
`onCodeReceived` was invoked (and with which `code` parameter), the page
sent, whether `this.close()` ran, and how the promise was settled. -/
structure HandleResult where
  invoked : Option (Option String)
  page : Option PageSent
  closed : Bool
  settled : Option Settled
deriving DecidableEq, Repr

/-- `CallbackServer.handleRequest(req, res, expectedState, onCodeReceived)`.
The outcome of the `onCodeReceived(code)` call (the token exchange performed
by the orchestrator's handler) is the explicit input `exchange`; it is only
consulted on the branch that invokes the handler.  The source, in order:
a path other than `/callback` returns with no response; a truthy `error`
parameter sends an error page, closes, rejects; a `state` different from
`expectedState` sends the Invalid State page, closes, rejects with
`Invalid state parameter`; otherwise `onCodeReceived(code)` is awaited —
success sends the success page and schedules close + resolve, failure sends
an error page, closes and rejects with the thrown message. -/
def CallbackServer.handleRequest (req : CallbackRequest) (expectedState : String)
    (exchange : Except String Unit) : HandleResult :=
  if req.pathname ≠ "/callback" then
    { invoked := none, page := none, closed := false, settled := none }
  else if optTruthy req.error then
    { invoked := none
      page := some (.errorPage "Authentication Failed" (req.error.getD ""))
      closed := true
      settled := some (.rejected (req.error.getD "")) }
  else if req.state ≠ some expectedState then
    { invoked := none
      page := some (.errorPage "Invalid State" "CSRF validation failed. Please try again.")
      closed := true
      settled := some (.rejected "Invalid state parameter") }
  else
    match exchange with
    | .ok _ =>
      { invoked := some req.code
        page := some .success
        closed := true
        settled := some .resolved }
    | .error msg =>
      { invoked := some req.code
        page := some (.errorPage "Token Exchange Failed" msg)
        closed := true
        settled := some (.rejected msg) }

/-! ## Tools cache (`tools.js`, `NetSuiteMCPTools.fetchTools`) -/

/-- A capability descriptor; its contents are irrelevant to the cache logic. -/
abbrev Tool := String

/-- The mutable cache fields of `NetSuiteMCPTools`: `toolsCache` is `null`
or an array (arrays are truthy even when empty), `lastToolsFetch` is `null`
or a millisecond timestamp (a number, falsy exactly when `0`). -/
structure ToolsCacheState where
  toolsCache : Option (List Tool)
  lastToolsFetch : Option Int
deriving DecidableEq, Repr

/-- JavaScript truthiness of `this.lastToolsFetch`: present and nonzero. -/
def lastFetchTruthy : Option Int → Bool
  | none => false
  | some t => t != 0

/-- The `error` member of a JSON-RPC response body, as read by `fetchTools`
(`response.data.error.message || 'Failed to fetch tools'`): an object whose
`message` may be absent, and absent or empty falls back to the default. -/
structure RpcError where
  message : Option String
deriving DecidableEq, Repr

/-- The fields `fetchTools` reads from `response.data`: an optional `error`
object, and an optional `result` whose `tools` array may be absent (objects
and arrays are truthy whenever present). -/
structure ToolsResponse where
  error : Option RpcError
  result : Option (Option (List Tool))
deriving DecidableEq, Repr

/-- `NetSuiteMCPTools.fetchTools()`.  Explicit inputs: the cache state, the
current time (`Date.now()`), the outcome of
`this.oauthManager.ensureValidToken()`, and the outcome of the `axios.post`
tools/list call.  The source: if `toolsCache` and `lastToolsFetch` are truthy
and `Date.now() - lastToolsFetch < toolsCacheTTL` (5 minutes), the cached
array is returned unchanged.  Otherwise a valid token is obtained (a failure
propagates) and the listing is requested; inside the `try`, a truthy
`response.data.error` throws (caught below and re-wrapped), a present
`response.data.result.tools` replaces the cache and timestamp and is
returned, and any other body returns `[]` leaving the cache untouched.  The
`catch` maps a 401 status to a fixed re-authentication message and wraps any
other error as `Failed to fetch tools: ${error.message}`. -/
def NetSuiteMCPTools.fetchTools (st : ToolsCacheState) (now : Int)
    (token : Except String String) (net : Except AxiosError ToolsResponse) :
    Except String (List Tool) × ToolsCacheState :=
  match st.toolsCache, lastFetchTruthy st.lastToolsFetch, st.lastToolsFetch with
  | some cached, true, some t =>
    if now - t < fiveMinutesMs then (.ok cached, st)
    else fetchFresh st now token net
  | _, _, _ => fetchFresh st now token net
where
  /-- The non-cache-hit path of `fetchTools`: token acquisition, the remote
  call, and the `try`/`catch` error wrapping. -/
  fetchFresh (st : ToolsCacheState) (now : Int) (token : Except String String)
      (net : Except AxiosError ToolsResponse) :
      Except String (List Tool) × ToolsCacheState :=
    match token with
    | .error m => (.error m, st)
    | .ok _ =>
      match net with
      | .error e =>
        if e.status = some 401 then
          (.error "NetSuite authentication failed. Please re-authenticate.", st)
        else
          (.error ("Failed to fetch tools: " ++ e.message), st)
      | .ok data =>
        match data.error with
        | some rpcErr =>
          (.error ("Failed to fetch tools: " ++ jsOrString rpcErr.message "Failed to fetch tools"), st)
        | none =>
          match data.result with
          | some (some tools) =>
            (.ok tools, { toolsCache := some tools, lastToolsFetch := some now })
          | _ => (.ok [], st)

/-! ## Base64 and base64url (`pkce.js`, `base64URLEncode`)

`Buffer.prototype.toString("base64")` is the platform primitive
`base64URLEncode` builds on; it is embedded here as the standard base64
encoding of a byte list (RFC 4648 §4, with `=` padding). -/

/-- The standard base64 alphabet, as a list of its 64 characters. -/
def b64Alphabet : List Char :=
  "ABCDEFGHIJKLMNOPQRSTUVWXYZabcdefghijklmnopqrstuvwxyz0123456789+/".data

/-- The base64 digit for a 6-bit value. -/
def b64Digit (v : Nat) : Char := b64Alphabet.getD v 'A'

/-- The 6-bit value of a base64 digit (used only by the spec-side decoder). -/
def b64Value (c : Char) : Nat := ((b64Alphabet.indexOf c : Nat))

/-- Standard base64 with padding, three input bytes per four output
characters: the embedding of `buffer.toString("base64")`. -/
def encodeB64 : List Nat → List Char
  | [] => []
  | [b₀] => [b64Digit (b₀ / 4), b64Digit (b₀ % 4 * 16), '=', '=']
  | [b₀, b₁] =>
    [b64Digit (b₀ / 4), b64Digit (b₀ % 4 * 16 + b₁ / 16), b64Digit (b₁ % 16 * 4), '=']
  | b₀ :: b₁ :: b₂ :: rest =>
    b64Digit (b₀ / 4) :: b64Digit (b₀ % 4 * 16 + b₁ / 16) ::
      b64Digit (b₁ % 16 * 4 + b₂ / 64) :: b64Digit (b₂ % 64) :: encodeB64 rest

/-- One `String.replace(/a/g, b)` step, per character. -/
def replChar (a b c : Char) : Char := if c = a then b else c

/-- `base64URLEncode(buffer)` from `pkce.js`: `buffer.toString("base64")`,
then `+` → `-`, then `/` → `_`, then every `=` removed. -/
def base64URLEncode (buffer : List Nat) : List Char :=
  (((encodeB64 buffer).map (replChar '+' '-')).map (replChar '/' '_')).filter (· ≠ '=')

/-- Spec-side inverse of the url-safe character mapping: `-` back to `+`,
`_` back to `/`. -/
def urlUnmap (c : Char) : Char := replChar '_' '/' (replChar '-' '+' c)

/-- Spec-side regrouping of 6-bit values into bytes: four sextets per three
bytes, with a two- or three-sextet tail carrying one or two bytes (the
unpadded-tail form of RFC 4648 decoding). -/
def decodeSextets : List Nat → List Nat
  | s₀ :: s₁ :: s₂ :: s₃ :: rest =>
    (s₀ * 4 + s₁ / 16) :: (s₁ % 16 * 16 + s₂ / 4) :: (s₂ % 4 * 64 + s₃) :: decodeSextets rest
  | [s₀, s₁] => [s₀ * 4 + s₁ / 16]
  | [s₀, s₁, s₂] => [s₀ * 4 + s₁ / 16, s₁ % 16 * 16 + s₂ / 4]
  | _ => []

/-- Spec-side base64url decoder (the spec's "mapping `-` back to `+` and `_`
back to `/` and restoring padding"): undo the url-safe mapping, take each
character's 6-bit value, and regroup into bytes. -/
def base64URLDecode (s : List Char) : List Nat :=
  decodeSextets ((s.map urlUnmap).map b64Value)

/-! ## SHA-256

`crypto.createHash('sha256')` is a platform primitive; it is embedded as the
FIPS 180-4 SHA-256 function over byte lists, with 32-bit words as `Nat`
reduced modulo `2 ^ 32`. -/

/-- 32-bit truncation. -/
def m32 (x : Nat) : Nat := x % 4294967296

/-- 32-bit right rotation. -/
def rotr32 (n x : Nat) : Nat := m32 (x / 2 ^ n + x % 2 ^ n * 2 ^ (32 - n))

/-- The SHA-256 round constants. -/
def shaK : List Nat :=
  [1116352408, 1899447441, 3049323471, 3921009573, 961987163, 1508970993,
   2453635748, 2870763221, 3624381080, 310598401, 607225278, 1426881987,
   1925078388, 2162078206, 2614888103, 3248222580, 3835390401, 4022224774,
   264347078, 604807628, 770255983, 1249150122, 1555081692, 1996064986,
   2554220882, 2821834349, 2952996808, 3210313671, 3336571891, 3584528711,
   113926993, 338241895, 666307205, 773529912, 1294757372, 1396182291,
   1695183700, 1986661051, 2177026350, 2456956037, 2730485921, 2820302411,
   3259730800, 3345764771, 3516065817, 3600352804, 4094571909, 275423344,
   430227734, 506948616, 659060556, 883997877, 958139571, 1322822218,
   1537002063, 1747873779, 1955562222, 2024104815, 2227730452, 2361852424,
   2428436474, 2756734187, 3204031479, 3329325298]

/-- The SHA-256 initial hash value. -/
def shaH0 : List Nat :=
  [1779033703, 3144134277, 1013904242, 2773480762,
   1359893119, 2600822924, 528734635, 1541459225]

/-- The big-endian 8-byte encoding of a length (the tail of the padding). -/
def lenBytes64 (n : Nat) : List Nat :=
  [n / 2 ^ 56 % 256, n / 2 ^ 48 % 256, n / 2 ^ 40 % 256, n / 2 ^ 32 % 256,
   n / 2 ^ 24 % 256, n / 2 ^ 16 % 256, n / 2 ^ 8 % 256, n % 256]

/-- SHA-256 padding: append `0x80`, zero-fill to 56 mod 64, then the
original bit length as 8 big-endian bytes. -/
def shaPad (msg : List Nat) : List Nat :=
  msg ++ 0x80 :: List.replicate ((55 + 64 - msg.length % 64) % 64) 0
      ++ lenBytes64 (msg.length * 8)

/-- Pack bytes into big-endian 32-bit words. -/
def bytesToWords : List Nat → List Nat
  | a :: b :: c :: d :: rest => (a * 2 ^ 24 + b * 2 ^ 16 + c * 2 ^ 8 + d) :: bytesToWords rest
  | _ => []

/-- Unpack 32-bit words into big-endian bytes. -/
def wordsToBytes : List Nat → List Nat
  | [] => []
  | w :: rest => w / 2 ^ 24 % 256 :: w / 2 ^ 16 % 256 :: w / 2 ^ 8 % 256 :: w % 256 :: wordsToBytes rest

/-- Split a byte list into 64-byte blocks (the input is already padded to a
multiple of 64). -/
def toBlocks (l : List Nat) : List (List Nat) :=
  if l = [] then [] else l.take 64 :: toBlocks (l.drop 64)
termination_by l.length
decreasing_by
  rename_i h
  have : 0 < l.length := List.length_pos.mpr h
  simp only [List.length_drop]
  omega

/-- Extend the 16 message words of one block to the 64-entry message
schedule (`w[i] = w[i-16] + s0(w[i-15]) + w[i-7] + s1(w[i-2])`). -/
def extendSchedule (w : List Nat) : Nat → List Nat
  | 0 => w
  | n + 1 =>
    extendSchedule
      (w ++ [let i := w.length
             let w15 := w.getD (i - 15) 0
             let w2 := w.getD (i - 2) 0
             let s0 := Nat.xor (Nat.xor (rotr32 7 w15) (rotr32 18 w15)) (w15 / 2 ^ 3)
             let s1 := Nat.xor (Nat.xor (rotr32 17 w2) (rotr32 19 w2)) (w2 / 2 ^ 10)
             m32 (w.getD (i - 16) 0 + s0 + w.getD (i - 7) 0 + s1)]) n

/-- One SHA-256 compression round, acting on the working variables
`(a, b, c, d, e, f, g, h)` with key-plus-schedule word `kw`. -/
def shaRound (v : List Nat) (kw : Nat) : List Nat :=
  match v with
  | [a, b, c, d, e, f, g, h] =>
    let S1 := Nat.xor (Nat.xor (rotr32 6 e) (rotr32 11 e)) (rotr32 25 e)
    let ch := Nat.xor (Nat.land e f) (Nat.land (Nat.xor e 4294967295) g)
    let temp1 := m32 (h + S1 + ch + kw)
    let S0 := Nat.xor (Nat.xor (rotr32 2 a) (rotr32 13 a)) (rotr32 22 a)
    let maj := Nat.xor (Nat.xor (Nat.land a b) (Nat.land a c)) (Nat.land b c)
    let temp2 := m32 (S0 + maj)
    [m32 (temp1 + temp2), a, b, c, m32 (d + temp1), e, f, g]
  | _ => v

/-- Process one 64-byte block: build the schedule, run the 64 rounds, and
add the result into the running hash. -/
def shaBlock (h : List Nat) (block : List Nat) : List Nat :=
  let w := extendSchedule (bytesToWords block) 48
  let v := (shaK.zip w).foldl (fun v kw => shaRound v (m32 (kw.1 + kw.2))) h
  (h.zip v).map (fun p => m32 (p.1 + p.2))

/-- SHA-256 of a byte list, as 32 digest bytes: the embedding of
`crypto.createHash('sha256').update(input).digest()`. -/
def sha256 (msg : List Nat) : List Nat :=
  wordsToBytes ((toBlocks (shaPad msg)).foldl shaBlock shaH0)

/-! ## PKCE generation (`pkce.js`, `generatePKCE`) -/

/-- The bytes `crypto.createHash('sha256').update(s)` hashes: the UTF-8
encoding of `s`, which for the ASCII-only strings produced by
`base64URLEncode` is the code point of each character. -/
def asciiBytes (s : String) : List Nat := s.data.map Char.toNat

/-- The record returned by `generatePKCE`. -/
structure PKCEPair where
  code_verifier : String
  code_challenge : String
  code_challenge_method : String
deriving DecidableEq, Repr

/-- `generatePKCE()` from `pkce.js`, with the output of
`crypto.randomBytes(32)` as the explicit input `entropy`:
`verifier = base64URLEncode(randomBytes)`,
`challenge = base64URLEncode(sha256(verifier))` (the verifier hashed as a
string), and the fixed method `"S256"`. -/
def generatePKCE (entropy : List Nat) : PKCEPair :=
  let verifier := String.mk (base64URLEncode entropy)
  { code_verifier := verifier
    code_challenge := String.mk (base64URLEncode (sha256 (asciiBytes verifier)))
    code_challenge_method := "S256" }

/-! ## Claims about refresh timing and the token service -/

/-- C3: `shouldRefreshToken` returns `true` exactly when the time until
expiry (`expires_at - now`) is strictly below five minutes (300000 ms), and
in particular returns `false` when the difference is exactly five minutes. -/
theorem shouldRefreshToken_iff :
    ∀ (tokens : Tokens) (now : Int),
      (shouldRefreshToken tokens now = true ↔ tokens.expires_at - now < 300000) ∧
      (tokens.expires_at = now + 300000 → shouldRefreshToken tokens now = false) := by
  intro tokens now
  constructor
  · simp [shouldRefreshToken, fiveMinutesMs]
  · intro h
    simp [shouldRefreshToken, fiveMinutesMs, h]

/-- Witness for C3 at a concrete record and time. -/
theorem shouldRefreshToken_iff_witness :
    shouldRefreshToken { access_token := "AT", refresh_token := "RT", expires_in := 300,
                         expires_at := 1300000, accountId := "acct", clientId := "cid" }
      1000000 = false :=
  (shouldRefreshToken_iff _ 1000000).2 rfl

/-- C4: a successful exchange yields a record with `expires_at` equal to the
current time plus `expires_in` in milliseconds, the tokens copied from the
provider response and the identifiers copied from the configuration; a
failed exchange raises an error carrying the provider's status or message
and yields no record. -/
theorem exchangeCodeForTokens_spec :
    ∀ (config : ExchangeConfig) (now : Int),
      (∀ d t, exchangeCodeForTokens config now (.ok d) = .ok t →
        t.access_token = d.access_token ∧ t.refresh_token = d.refresh_token ∧
        t.expires_at = now + d.expires_in * 1000 ∧
        t.accountId = config.accountId ∧ t.clientId = config.clientId) ∧
      (∀ e, exchangeCodeForTokens config now (.error e) =
        .error ("Failed to exchange authorization code: " ++ e.statusOrMessage)) := by
  intro config now
  constructor
  · intro d t h
    simp only [exchangeCodeForTokens, Except.ok.injEq] at h
    subst h
    exact ⟨rfl, rfl, rfl, rfl, rfl⟩
  · intro e
    rfl

/-- Witness for C4: the success branch at a concrete response. -/
theorem exchangeCodeForTokens_spec_witness :
    ({ access_token := "AT1", refresh_token := "RT1", expires_in := 3600,
       expires_at := 5000 + 3600 * 1000, accountId := "123-sb1", clientId := "cid" } : Tokens).access_token
        = "AT1" ∧
    ({ access_token := "AT1", refresh_token := "RT1", expires_in := 3600,
       expires_at := 5000 + 3600 * 1000, accountId := "123-sb1", clientId := "cid" } : Tokens).refresh_token
        = "RT1" ∧
    ({ access_token := "AT1", refresh_token := "RT1", expires_in := 3600,
       expires_at := 5000 + 3600 * 1000, accountId := "123-sb1", clientId := "cid" } : Tokens).expires_at
        = 5000 + 3600 * 1000 ∧
    ({ access_token := "AT1", refresh_token := "RT1", expires_in := 3600,
       expires_at := 5000 + 3600 * 1000, accountId := "123-sb1", clientId := "cid" } : Tokens).accountId
        = ({ accountId := "123-sb1", clientId := "cid", redirectUri := "r" } : ExchangeConfig).accountId ∧
    ({ access_token := "AT1", refresh_token := "RT1", expires_in := 3600,
       expires_at := 5000 + 3600 * 1000, accountId := "123-sb1", clientId := "cid" } : Tokens).clientId
        = ({ accountId := "123-sb1", clientId := "cid", redirectUri := "r" } : ExchangeConfig).clientId :=
  (exchangeCodeForTokens_spec { accountId := "123-sb1", clientId := "cid", redirectUri := "r" } 5000).1
    { access_token := "AT1", refresh_token := "RT1", expires_in := 3600 } _ rfl

/-- C5: a successful refresh keeps `accountId` and `clientId` (all fields
other than the four overwritten ones) identical to the input record, takes
the provider's new refresh token when the response carries a non-empty one,
and otherwise retains the original refresh token. -/
theorem refreshAccessToken_frame :
    ∀ (tokens : Tokens) (now : Int) (d : RefreshResponse) (t : Tokens),
      refreshAccessToken tokens now (.ok d) = .ok t →
      t.accountId = tokens.accountId ∧ t.clientId = tokens.clientId ∧
      (∀ r, d.refresh_token = some r → r ≠ "" → t.refresh_token = r) ∧
      ((d.refresh_token = none ∨ d.refresh_token = some "") →
        t.refresh_token = tokens.refresh_token) := by
  intro tokens now d t h
  simp only [refreshAccessToken, Except.ok.injEq] at h
  subst h
  refine ⟨rfl, rfl, ?_, ?_⟩
  · intro r hr hne
    simp [jsOrString, hr, hne]
  · rintro (hr | hr) <;> simp [jsOrString, hr]

/-- Witness for C5: a refresh response that omits the refresh token keeps
the old one while the identifiers are unchanged. -/
theorem refreshAccessToken_frame_witness :
    (refreshAccessToken
        { access_token := "AT1", refresh_token := "RT1", expires_in := 3600,
          expires_at := 0, accountId := "acct", clientId := "cid" } 7000
        (.ok { access_token := "AT2", refresh_token := none, expires_in := 3600 })
      = Except.ok
        { access_token := "AT2", refresh_token := "RT1", expires_in := 3600,
          expires_at := 7000 + 3600 * 1000, accountId := "acct", clientId := "cid" }) ∧
    ({ access_token := "AT2", refresh_token := "RT1", expires_in := 3600,
       expires_at := 7000 + 3600 * 1000, accountId := "acct", clientId := "cid" } : Tokens).refresh_token
      = "RT1" :=
  ⟨rfl,
    (refreshAccessToken_frame
      { access_token := "AT1", refresh_token := "RT1", expires_in := 3600,
        expires_at := 0, accountId := "acct", clientId := "cid" } 7000
      { access_token := "AT2", refresh_token := none, expires_in := 3600 } _ rfl).2.2.2
      (Or.inl rfl)⟩

/-! ## Claims about session storage -/

/-- C6 counterexample: `isAuthenticated` checks the truthiness of the whole
`tokens` field, not the access token inside it.  For a stored session whose
`tokens` object carries an empty `access_token`, the method still returns
`true`, refuting the claim that it returns `true` only when the access token
is present and non-empty. -/
theorem isAuthenticated_counterexample :
    SessionStorage.isAuthenticated
        (Except.ok (JSVal.obj
          [("authenticated", JSVal.bool true),
           ("tokens", JSVal.obj [("access_token", JSVal.str "")])])) = true ∧
    ((JSVal.obj
        [("authenticated", JSVal.bool true),
         ("tokens", JSVal.obj [("access_token", JSVal.str "")])]).get "tokens").get
        "access_token" = JSVal.str "" :=
  ⟨rfl, rfl⟩

/-- C6 (amended): `isAuthenticated` returns `true` exactly when the session
loads successfully and both its `authenticated` field and its `tokens` field
are truthy; the expiry timestamp is never consulted, and the `tokens` object
need not contain a non-empty access token. -/
theorem isAuthenticated_amended :
    ∀ (loadResult : Except LoadError JSVal),
      SessionStorage.isAuthenticated loadResult = true ↔
        ∃ s, loadResult = .ok s ∧ s.truthy = true ∧
          (s.get "authenticated").truthy = true ∧ (s.get "tokens").truthy = true := by
  intro loadResult
  constructor
  · intro h
    match loadResult with
    | .error _ => simp [SessionStorage.isAuthenticated] at h
    | .ok s =>
      simp only [SessionStorage.isAuthenticated, Bool.and_eq_true] at h
      exact ⟨s, rfl, h.1.1, h.1.2, h.2⟩
  · rintro ⟨s, rfl, h₁, h₂, h₃⟩
    simp [SessionStorage.isAuthenticated, h₁, h₂, h₃]

/-- Witness for C6's amended claim at a concrete authenticated session. -/
theorem isAuthenticated_amended_witness :
    SessionStorage.isAuthenticated
        (Except.ok (JSVal.obj
          [("authenticated", JSVal.bool true),
           ("tokens", JSVal.obj [("access_token", JSVal.str "AT1")])])) = true :=
  (isAuthenticated_amended _).mpr
    ⟨JSVal.obj [("authenticated", JSVal.bool true),
                ("tokens", JSVal.obj [("access_token", JSVal.str "AT1")])],
      rfl, rfl, rfl, rfl⟩

/-- C7 counterexample: `load` also returns the absent value when the session
file exists and its contents decode to JSON `null` (the parse function here
agrees with `JSON.parse` on the string read: `JSON.parse("null")` is
`null`), so `null` is not returned exclusively on a missing file. -/
theorem load_counterexample :
    SessionStorage.load (Except.ok "null")
        (fun s => if s = "null" then .ok .null else .error "unexpected input") =
      Except.ok JSVal.null :=
  rfl

/-- C7 (amended): `load` returns the absent value on a missing file
(`ENOENT`); every other read failure and every decode failure is raised to
the caller rather than converted to absent; a successful read returns
whatever value the contents decode to — in particular a file whose contents
decode to JSON `null` also yields the absent value. -/
theorem load_absent_spec :
    ∀ (readResult : Except IOError String) (parse : String → Except String JSVal),
      (∀ e, readResult = .error e → e.code = "ENOENT" →
        SessionStorage.load readResult parse = .ok .null) ∧
      (∀ e, readResult = .error e → e.code ≠ "ENOENT" →
        SessionStorage.load readResult parse = .error (.io e)) ∧
      (∀ data msg, readResult = .ok data → parse data = .error msg →
        SessionStorage.load readResult parse = .error (.decode msg)) ∧
      (∀ data v, readResult = .ok data → parse data = .ok v →
        SessionStorage.load readResult parse = .ok v) := by
  intro readResult parse
  refine ⟨?_, ?_, ?_, ?_⟩
  · rintro e rfl h
    simp [SessionStorage.load, h]
  · rintro e rfl h
    simp [SessionStorage.load, h]
  · rintro data msg rfl h
    simp [SessionStorage.load, h]
  · rintro data v rfl h
    simp [SessionStorage.load, h]

/-- Witness for C7's amended claim: a missing file yields the absent value. -/
theorem load_absent_spec_witness :
    SessionStorage.load (Except.error { code := "ENOENT", message := "no such file" })
        (fun _ => .error "not reached") = Except.ok JSVal.null :=
  (load_absent_spec _ _).1 { code := "ENOENT", message := "no such file" } rfl rfl

/-- C10: `isAuthenticated` never propagates a failure from `load` — whenever
`load` raises (unreadable file other than `ENOENT`, or contents that fail to
decode), `isAuthenticated` of that outcome is the boolean `false`. -/
theorem isAuthenticated_on_load_failure :
    ∀ (readResult : Except IOError String) (parse : String → Except String JSVal)
      (err : LoadError),
      SessionStorage.load readResult parse = .error err →
      SessionStorage.isAuthenticated (SessionStorage.load readResult parse) = false := by
  intro readResult parse err h
  rw [h]
  rfl

/-- Witness for C10: a session file holding invalid JSON. -/
theorem isAuthenticated_on_load_failure_witness :
    SessionStorage.isAuthenticated
        (SessionStorage.load (Except.ok "\x7b")
          (fun s => if s = "\x7b" then .error "Unexpected end of JSON input" else .ok .null)) =
      false :=
  isAuthenticated_on_load_failure (Except.ok "\x7b")
    (fun s => if s = "\x7b" then .error "Unexpected end of JSON input" else .ok .null)
    (.decode "Unexpected end of JSON input") rfl

/-! ## Claims about the callback server -/

/-- C1: a `/callback` request whose `state` parameter differs from the
expected state never invokes the code handler (so no token exchange and no
session write can occur for that attempt); the handler sends a failure page,
closes the server, and rejects the flow promise.  This holds whether the
mismatching request also carries an `error` parameter (the error branch
fires first) or not (the CSRF branch fires). -/
theorem handleRequest_state_mismatch :
    ∀ (req : CallbackRequest) (expectedState : String) (exchange : Except String Unit),
      req.pathname = "/callback" →
      req.state ≠ some expectedState →
      (CallbackServer.handleRequest req expectedState exchange).invoked = none ∧
      (∃ t m, (CallbackServer.handleRequest req expectedState exchange).page =
        some (.errorPage t m)) ∧
      (CallbackServer.handleRequest req expectedState exchange).closed = true ∧
      (∃ m, (CallbackServer.handleRequest req expectedState exchange).settled =
        some (.rejected m)) := by
  intro req expectedState exchange hpath hstate
  unfold CallbackServer.handleRequest
  rw [if_neg (by simp [hpath])]
  by_cases herr : optTruthy req.error
  · rw [if_pos herr]
    exact ⟨rfl, ⟨_, _, rfl⟩, rfl, _, rfl⟩
  · rw [if_neg herr, if_pos hstate]
    exact ⟨rfl, ⟨_, _, rfl⟩, rfl, _, rfl⟩

/-- Witness for C1 at a concrete mismatching request. -/
theorem handleRequest_state_mismatch_witness :
    (CallbackServer.handleRequest
        { pathname := "/callback", code := some "abc", state := some "wrong", error := none }
        "expected" (.ok ())).invoked = none ∧
    (∃ t m, (CallbackServer.handleRequest
        { pathname := "/callback", code := some "abc", state := some "wrong", error := none }
        "expected" (.ok ())).page = some (.errorPage t m)) ∧
    (CallbackServer.handleRequest
        { pathname := "/callback", code := some "abc", state := some "wrong", error := none }
        "expected" (.ok ())).closed = true ∧
    (∃ m, (CallbackServer.handleRequest
        { pathname := "/callback", code := some "abc", state := some "wrong", error := none }
        "expected" (.ok ())).settled = some (.rejected m)) :=
  handleRequest_state_mismatch
    { pathname := "/callback", code := some "abc", state := some "wrong", error := none }
    "expected" (.ok ()) rfl (by decide)

/-! ## Claims about the tools cache -/

/-- C8: `fetchTools` never serves a stale cache entry and failures leave the
cache untouched.  Whenever the call fails (token acquisition, transport,
401, or an error payload), the cache entry and its fetch timestamp are
exactly as before.  Whenever the call succeeds, the returned list is either
the freshly fetched one (with the timestamp set to now), the empty list of
the no-tools branch (cache untouched), or the cached entry — and in that
last case its age `now - lastToolsFetch` is strictly below five minutes. -/
theorem fetchTools_cache_invariant :
    ∀ (st : ToolsCacheState) (now : Int) (token : Except String String)
      (net : Except AxiosError ToolsResponse) (r : Except String (List Tool))
      (st₂ : ToolsCacheState),
      NetSuiteMCPTools.fetchTools st now token net = (r, st₂) →
      ((∃ e, r = .error e) → st₂ = st) ∧
      (∀ v, r = .ok v →
        (st₂ = st ∧ v = []) ∨
        (∃ t, st.toolsCache = some v ∧ st.lastToolsFetch = some t ∧ t ≠ 0 ∧
          now - t < fiveMinutesMs ∧ st₂ = st) ∨
        st₂ = { toolsCache := some v, lastToolsFetch := some now }) := by
  intro st now token net r st₂ h
  have hfresh : ∀ (h₂ : NetSuiteMCPTools.fetchTools.fetchFresh st now token net = (r, st₂)),
      ((∃ e, r = .error e) → st₂ = st) ∧
      (∀ v, r = .ok v →
        (st₂ = st ∧ v = []) ∨
        (∃ t, st.toolsCache = some v ∧ st.lastToolsFetch = some t ∧ t ≠ 0 ∧
          now - t < fiveMinutesMs ∧ st₂ = st) ∨
        st₂ = { toolsCache := some v, lastToolsFetch := some now }) := by
    intro h₂
    unfold NetSuiteMCPTools.fetchTools.fetchFresh at h₂
    repeat' split at h₂
    all_goals obtain ⟨rfl, rfl⟩ := Prod.mk.injEq .. ▸ h₂
    all_goals refine ⟨fun he => ?_, fun v hv => ?_⟩ <;> first
      | rfl
      | (obtain ⟨e, he⟩ := he; simp at he)
      | (injection hv with hv; subst hv; exact Or.inr (Or.inr rfl))
      | (injection hv with hv; exact Or.inl ⟨rfl, hv.symm⟩)
      | simp at hv
  unfold NetSuiteMCPTools.fetchTools at h
  split at h
  · rename_i _ _ _ cached t hcache htruthy hlast
    split at h
    · rename_i hage
      obtain ⟨rfl, rfl⟩ := Prod.mk.injEq .. ▸ h
      refine ⟨?_, ?_⟩
      · rintro ⟨e, he⟩
        cases he
      · rintro v hv
        obtain rfl : cached = v := by injection hv
        exact Or.inr (Or.inl ⟨t, hcache, hlast,
          by rw [hlast] at htruthy; simpa [lastFetchTruthy] using htruthy, hage, rfl⟩)
    · exact hfresh h
  · exact hfresh h

/-- Witness for C8: a fresh cache entry is served unchanged even though the
remote call would have failed. -/
theorem fetchTools_cache_invariant_witness :
    ((∃ e, (Except.ok ["toolA"] : Except String (List Tool)) = .error e) →
      ({ toolsCache := some ["toolA"], lastToolsFetch := some 1000 } : ToolsCacheState) =
        { toolsCache := some ["toolA"], lastToolsFetch := some 1000 }) ∧
    (∀ v, (Except.ok ["toolA"] : Except String (List Tool)) = .ok v →
      (({ toolsCache := some ["toolA"], lastToolsFetch := some 1000 } : ToolsCacheState) =
          { toolsCache := some ["toolA"], lastToolsFetch := some 1000 } ∧ v = []) ∨
      (∃ t, ({ toolsCache := some ["toolA"], lastToolsFetch := some 1000 } : ToolsCacheState).toolsCache = some v ∧
        ({ toolsCache := some ["toolA"], lastToolsFetch := some 1000 } : ToolsCacheState).lastToolsFetch = some t ∧
        t ≠ 0 ∧ (2000 : Int) - t < fiveMinutesMs ∧
        ({ toolsCache := some ["toolA"], lastToolsFetch := some 1000 } : ToolsCacheState) =
          { toolsCache := some ["toolA"], lastToolsFetch := some 1000 }) ∨
      ({ toolsCache := some ["toolA"], lastToolsFetch := some 1000 } : ToolsCacheState) =
        { toolsCache := some v, lastToolsFetch := some 2000 }) :=
  fetchTools_cache_invariant
    { toolsCache := some ["toolA"], lastToolsFetch := some 1000 } 2000
    (.ok "token") (.error { status := some 500, message := "boom" })
    (.ok ["toolA"]) { toolsCache := some ["toolA"], lastToolsFetch := some 1000 } rfl

/-! ## Claims about base64url and PKCE -/

/-- Round trip of one base64url character: taking the 6-bit value of the
url-mapped digit of any 6-bit value returns that value. -/
theorem b64_char_roundtrip :
    ∀ v, v < 64 → b64Value (urlUnmap (replChar '/' '_' (replChar '+' '-' (b64Digit v)))) = v := by
  decide

/-- The url-mapped digit of a 6-bit value is never the padding character. -/
theorem b64_char_ne_pad :
    ∀ v, v < 64 → (replChar '/' '_' (replChar '+' '-' (b64Digit v))) ≠ '=' := by
  decide

/-- No character of a `base64URLEncode` output is `+`, `/` or `=`: the two
replacements remove every `+` and `/` (and introduce none), and the filter
removes every `=`. -/
theorem base64URLEncode_no_special_chars :
    ∀ (bs : List Nat), ∀ c ∈ base64URLEncode bs, c ≠ '+' ∧ c ≠ '/' ∧ c ≠ '=' := by
  intro bs c hc
  simp only [base64URLEncode, List.mem_filter, List.mem_map] at hc
  obtain ⟨⟨d, ⟨e, _, rfl⟩, rfl⟩, hne⟩ := hc
  refine ⟨?_, ?_, by simpa using hne⟩
  · unfold replChar
    split_ifs <;> simp_all
  · unfold replChar
    split_ifs <;> simp_all

/-- Decoding a `base64URLEncode` output recovers the encoded bytes, chunk
by chunk: the full-chunk case restores three bytes from four 6-bit values
and recurses, the one- and two-byte tails restore from the two or three
digits that survive the padding filter. -/
theorem base64URLDecode_base64URLEncode :
    ∀ (b : List Nat), (∀ x ∈ b, x < 256) → base64URLDecode (base64URLEncode b) = b := by
  intro b
  induction b using encodeB64.induct with
  | case1 => intro _; rfl
  | case2 b₀ =>
    intro hb
    have h₀ : b₀ < 256 := hb b₀ (by simp)
    have e₀ := b64_char_ne_pad (b₀ / 4) (by omega)
    have e₁ := b64_char_ne_pad (b₀ % 4 * 16) (by omega)
    have r₀ := b64_char_roundtrip (b₀ / 4) (by omega)
    have r₁ := b64_char_roundtrip (b₀ % 4 * 16) (by omega)
    simp only [base64URLEncode, encodeB64, List.map_cons, List.map_nil,
      List.filter_cons, List.filter_nil, e₀, e₁, decide_not]
    norm_num
    simp only [base64URLDecode, List.map_cons, List.map_nil, decodeSextets, r₀, r₁]
    simp only [List.cons.injEq, and_true]
    omega
  | case3 b₀ b₁ =>
    intro hb
    have h₀ : b₀ < 256 := hb b₀ (by simp)
    have h₁ : b₁ < 256 := hb b₁ (by simp)
    have e₀ := b64_char_ne_pad (b₀ / 4) (by omega)
    have e₁ := b64_char_ne_pad (b₀ % 4 * 16 + b₁ / 16) (by omega)
    have e₂ := b64_char_ne_pad (b₁ % 16 * 4) (by omega)
    have r₀ := b64_char_roundtrip (b₀ / 4) (by omega)
    have r₁ := b64_char_roundtrip (b₀ % 4 * 16 + b₁ / 16) (by omega)
    have r₂ := b64_char_roundtrip (b₁ % 16 * 4) (by omega)
    simp only [base64URLEncode, encodeB64, List.map_cons, List.map_nil,
      List.filter_cons, List.filter_nil, e₀, e₁, e₂, decide_not]
    norm_num
    simp only [base64URLDecode, List.map_cons, List.map_nil, decodeSextets, r₀, r₁, r₂]
    simp only [List.cons.injEq, and_true]
    omega
  | case4 b₀ b₁ b₂ rest ih =>
    intro hb
    have h₀ : b₀ < 256 := hb b₀ (by simp)
    have h₁ : b₁ < 256 := hb b₁ (by simp)
    have h₂ : b₂ < 256 := hb b₂ (by simp)
    have e₀ := b64_char_ne_pad (b₀ / 4) (by omega)
    have e₁ := b64_char_ne_pad (b₀ % 4 * 16 + b₁ / 16) (by omega)
    have e₂ := b64_char_ne_pad (b₁ % 16 * 4 + b₂ / 64) (by omega)
    have e₃ := b64_char_ne_pad (b₂ % 64) (by omega)
    have r₀ := b64_char_roundtrip (b₀ / 4) (by omega)
    have r₁ := b64_char_roundtrip (b₀ % 4 * 16 + b₁ / 16) (by omega)
    have r₂ := b64_char_roundtrip (b₁ % 16 * 4 + b₂ / 64) (by omega)
    have r₃ := b64_char_roundtrip (b₂ % 64) (by omega)
    have ih₂ := ih (fun x hx => hb x (by simp [hx]))
    simp only [base64URLDecode, base64URLEncode, List.map_map] at ih₂
    simp only [base64URLEncode, encodeB64, List.map_cons, List.filter_cons, e₀, e₁, e₂, e₃,
      decide_not]
    norm_num
    simp only [base64URLDecode, List.map_cons, decodeSextets, r₀, r₁, r₂, r₃]
    simp only [List.map_map]
    simp only [ne_eq, decide_not] at ih₂
    rw [ih₂]
    simp only [List.cons.injEq, and_true]
    omega

/-- C9: decoding a `base64URLEncode` output as url-safe base64 (undoing the
`-`/`_` mapping and the padding removal) returns exactly the encoded bytes;
consequently the encoding is injective on byte lists, and a PKCE verifier's
underlying bytes are recoverable from the verifier string. -/
theorem base64URLEncode_roundtrip :
    ∀ (a b : List Nat), (∀ x ∈ a, x < 256) → (∀ x ∈ b, x < 256) →
      base64URLDecode (base64URLEncode a) = a ∧
      (base64URLEncode a = base64URLEncode b → a = b) := by
  intro a b ha hb
  refine ⟨base64URLDecode_base64URLEncode a ha, fun h => ?_⟩
  have h₂ := base64URLDecode_base64URLEncode a ha
  rw [h, base64URLDecode_base64URLEncode b hb] at h₂
  exact h₂.symm

/-- Witness for C9 at two concrete byte lists. -/
theorem base64URLEncode_roundtrip_witness :
    base64URLDecode (base64URLEncode [0, 1, 2, 255, 254]) = [0, 1, 2, 255, 254] ∧
    (base64URLEncode [0, 1, 2, 255, 254] = base64URLEncode [77] →
      [0, 1, 2, 255, 254] = [77]) :=
  base64URLEncode_roundtrip [0, 1, 2, 255, 254] [77] (by decide) (by decide)

/-- C2: for any 32 random bytes, `generatePKCE` returns the url-safe
unpadded base64 encoding of those bytes as the verifier, the url-safe
unpadded base64 encoding of the SHA-256 digest of the verifier string as
the challenge, and the method `"S256"`; neither output string contains a
`+`, `/` or `=` character. -/
theorem generatePKCE_spec :
    ∀ (entropy : List Nat), entropy.length = 32 → (∀ x ∈ entropy, x < 256) →
      (generatePKCE entropy).code_verifier = String.mk (base64URLEncode entropy) ∧
      (generatePKCE entropy).code_challenge =
        String.mk (base64URLEncode (sha256 (asciiBytes (generatePKCE entropy).code_verifier))) ∧
      (generatePKCE entropy).code_challenge_method = "S256" ∧
      (∀ c ∈ (generatePKCE entropy).code_verifier.data, c ≠ '+' ∧ c ≠ '/' ∧ c ≠ '=') ∧
      (∀ c ∈ (generatePKCE entropy).code_challenge.data, c ≠ '+' ∧ c ≠ '/' ∧ c ≠ '=') := by
  intro entropy _ _
  refine ⟨rfl, rfl, rfl, ?_, ?_⟩
  · intro c hc
    exact base64URLEncode_no_special_chars entropy c hc
  · intro c hc
    exact base64URLEncode_no_special_chars _ c hc

/-- Witness for C2 at a concrete 32-byte input. -/
theorem generatePKCE_spec_witness :
    (generatePKCE (List.range 32)).code_verifier = String.mk (base64URLEncode (List.range 32)) ∧
    (generatePKCE (List.range 32)).code_challenge =
      String.mk (base64URLEncode (sha256 (asciiBytes (generatePKCE (List.range 32)).code_verifier))) ∧
    (generatePKCE (List.range 32)).code_challenge_method = "S256" ∧
    (∀ c ∈ (generatePKCE (List.range 32)).code_verifier.data, c ≠ '+' ∧ c ≠ '/' ∧ c ≠ '=') ∧
    (∀ c ∈ (generatePKCE (List.range 32)).code_challenge.data, c ≠ '+' ∧ c ≠ '/' ∧ c ≠ '=') :=
  generatePKCE_spec (List.range 32) (by decide) (by decide)

end NetSuiteMCP
